import Mathlib

/-!
Shallow embedding of the AusbildungScout backend (TypeScript) in Lean 4,
with theorems checking the natural-language specification against the code.

Conventions used throughout:
* a TS value of type `number | undefined` is `Option ℚ`; JS truthiness of
  such a value is `jsTruthy` (absent and 0 are falsy);
* a TS `string | undefined` is `Option String` (empty string is falsy);
* `Math.round` is `jsRound` (floor of x + 1/2, ties toward positive infinity);
* fallible external calls are oracle parameters returning `Except`/`Option`.
-/

namespace AusbildungScout

/-- Model of JS Math.round on finite numbers: round half toward plus infinity. -/
def jsRound (q : ℚ) : ℚ := (⌊q + 1/2⌋ : ℤ)

/-- JS truthiness of a `number | undefined` value: undefined and 0 are falsy. -/
def jsTruthy : Option ℚ → Bool
  | Option.none => false
  | some v => decide (v ≠ 0)

/-! ### Types (src/backend/src/types, enum TariffType) -/

/-- The TariffType enum from the TS types module. -/
inductive TariffType
  | NONE
  | IG_METALL
  | VERDI
  | IG_BCE
  | IG_BAU
  | NGG
  | TVOD
  | TV_L
  | IT_TARIFVERTRAG
  | EINZELHANDEL
  | BANKING
  | OTHER
deriving DecidableEq, Repr

/-- The source tag of a SalaryResolutionResult. -/
inductive SalarySource
  | scraped
  | company_website
  | tariff_standard
  | none
deriving DecidableEq, Repr

/-- SalaryResolutionResult interface (salary-resolver.ts); absent optional
fields are `Option.none`. -/
structure SalaryResolutionResult where
  firstYearSalary : Option ℚ := Option.none
  thirdYearSalary : Option ℚ := Option.none
  average : Option ℚ := Option.none
  source : SalarySource
  tariffUsed : Option TariffType := Option.none
deriving DecidableEq, Repr

/-! ### tariff-salary-mapper.ts -/

/-- TARIFF_FIRST_YEAR_SALARIES: Record of standard 1st year salaries
(EUR/month) by tariff type; NONE maps to null. -/
def TARIFF_FIRST_YEAR_SALARIES : TariffType → Option ℚ
  | .NONE => Option.none
  | .IG_METALL => some 1150
  | .VERDI => some 1050
  | .IG_BCE => some 1100
  | .IG_BAU => some 920
  | .NGG => some 900
  | .TVOD => some 1068
  | .TV_L => some 1068
  | .IT_TARIFVERTRAG => some 1150
  | .EINZELHANDEL => some 850
  | .BANKING => some 1150
  | .OTHER => some 950

/-- getTariffFirstYearSalary(tariffType?): null for absent/NONE tariff,
otherwise the table entry coerced through the JS `|| null` (a falsy table
value becomes null). -/
def getTariffFirstYearSalary (tariffType : Option TariffType) : Option ℚ :=
  match tariffType with
  | Option.none => Option.none
  | some t =>
    if t = TariffType.NONE then Option.none
    else
      match TARIFF_FIRST_YEAR_SALARIES t with
      | some v => if v = 0 then Option.none else some v
      | Option.none => Option.none

/-! ### salary-resolver.ts -/

/-- The `...(scrapedThirdYear && { thirdYearSalary })` spread: the field is
set only when the scraped third year value is truthy. -/
def withScrapedThird (scrapedThirdYear : Option ℚ) : Option ℚ :=
  if jsTruthy scrapedThirdYear then scrapedThirdYear else Option.none

/-- The `average` expression used in every populated branch of the resolver:
`scrapedThirdYear ? Math.round((first + third) / 2) : first`. -/
def salaryAverage (first : ℚ) (scrapedThirdYear : Option ℚ) : ℚ :=
  match scrapedThirdYear with
  | some t => if t = 0 then first else jsRound ((first + t) / 2)
  | Option.none => first

/-- The result object built in the Priority-1 (scraped) branch of both
resolvers. -/
def scrapedResult (f : ℚ) (scrapedThirdYear : Option ℚ) : SalaryResolutionResult :=
  { firstYearSalary := some f
    thirdYearSalary := withScrapedThird scrapedThirdYear
    average := some (salaryAverage f scrapedThirdYear)
    source := SalarySource.scraped }

/-- The Priority-2b step shared by both resolvers: use the tariff standard
salary when defined, otherwise leave blank with tariffUsed set. -/
def tariffStandardResult (t : TariffType) (scrapedThirdYear : Option ℚ) :
    SalaryResolutionResult :=
  match getTariffFirstYearSalary (some t) with
  | some v =>
    { firstYearSalary := some v
      thirdYearSalary := withScrapedThird scrapedThirdYear
      average := some (salaryAverage v scrapedThirdYear)
      source := SalarySource.tariff_standard
      tariffUsed := some t }
  | Option.none => { source := SalarySource.none, tariffUsed := some t }

/-- Data returned by fetchCompanyBenefits (only the field the resolver
reads). -/
structure CompanyBenefits where
  firstYearSalary : Option ℚ := Option.none
deriving DecidableEq, Repr

/-- Outcome of an awaited fetchCompanyBenefits call: `.error ()` models a
thrown/rejected call (caught by the resolver), `.ok Option.none` models a
null result. -/
def FetchOutcome : Type := Except Unit (Option CompanyBenefits)

/-- Priority 2a then 2b of resolveFirstYearSalary when a non-NONE tariff is
present: try the company website (only when companyName and originalLink are
both truthy), fall back to the tariff standard. Errors of the fetch are
swallowed by the try/catch. -/
def resolveWithTariff (fetchCompanyBenefits : String → String → FetchOutcome)
    (scrapedThirdYear : Option ℚ) (t : TariffType)
    (companyName originalLink : Option String) : SalaryResolutionResult :=
  let fromWebsite : Option ℚ :=
    match companyName, originalLink with
    | some cn, some ol =>
      if cn ≠ "" ∧ ol ≠ "" then
        match fetchCompanyBenefits cn ol with
        | Except.ok (some d) =>
          if jsTruthy d.firstYearSalary then d.firstYearSalary else Option.none
        | _ => Option.none
      else Option.none
    | _, _ => Option.none
  match fromWebsite with
  | some v =>
    { firstYearSalary := some v
      thirdYearSalary := withScrapedThird scrapedThirdYear
      average := some (salaryAverage v scrapedThirdYear)
      source := SalarySource.company_website
      tariffUsed := some t }
  | Option.none => tariffStandardResult t scrapedThirdYear

/-- resolveFirstYearSalary after the Priority-1 check failed (no truthy
scraped salary): blank when the tariff is absent or NONE, otherwise the
tariff path. -/
def resolveNoScraped (fetchCompanyBenefits : String → String → FetchOutcome)
    (scrapedThirdYear : Option ℚ) (tariffType : Option TariffType)
    (companyName originalLink : Option String) : SalaryResolutionResult :=
  match tariffType with
  | Option.none => { source := SalarySource.none }
  | some t =>
    if t = TariffType.NONE then { source := SalarySource.none }
    else resolveWithTariff fetchCompanyBenefits scrapedThirdYear t companyName originalLink

/-- resolveFirstYearSalary (the full, awaited resolver), as a pure function
of its arguments and of the fetchCompanyBenefits oracle. -/
def resolveFirstYearSalary (fetchCompanyBenefits : String → String → FetchOutcome)
    (scrapedFirstYear scrapedThirdYear : Option ℚ) (tariffType : Option TariffType)
    (companyName originalLink : Option String) : SalaryResolutionResult :=
  match scrapedFirstYear with
  | some f =>
    if f ≠ 0 then scrapedResult f scrapedThirdYear
    else resolveNoScraped fetchCompanyBenefits scrapedThirdYear tariffType companyName originalLink
  | Option.none =>
    resolveNoScraped fetchCompanyBenefits scrapedThirdYear tariffType companyName originalLink

/-- resolveFirstYearSalaryFast after the Priority-1 check failed: blank for
absent/NONE tariff, otherwise straight to the tariff standard (no website
step). -/
def resolveNoScrapedFast (scrapedThirdYear : Option ℚ) (tariffType : Option TariffType) :
    SalaryResolutionResult :=
  match tariffType with
  | Option.none => { source := SalarySource.none }
  | some t =>
    if t = TariffType.NONE then { source := SalarySource.none }
    else tariffStandardResult t scrapedThirdYear

/-- resolveFirstYearSalaryFast (synchronous batch variant, skips the company
website check). -/
def resolveFirstYearSalaryFast (scrapedFirstYear scrapedThirdYear : Option ℚ)
    (tariffType : Option TariffType) : SalaryResolutionResult :=
  match scrapedFirstYear with
  | some f =>
    if f ≠ 0 then scrapedResult f scrapedThirdYear
    else resolveNoScrapedFast scrapedThirdYear tariffType
  | Option.none => resolveNoScrapedFast scrapedThirdYear tariffType

/-! ### JS string primitives -/

/-- Model of JS String.prototype.toLowerCase on one character, for the Basic
Latin and Latin-1 ranges (A-Z and À-Þ except ×, each mapped by +32); other
characters are left unchanged. -/
def jsToLower (c : Char) : Char :=
  if (65 ≤ c.toNat ∧ c.toNat ≤ 90) ∨
      (192 ≤ c.toNat ∧ c.toNat ≤ 222 ∧ c.toNat ≠ 215) then
    Char.ofNat (c.toNat + 32)
  else c

/-- Model of JS toLowerCase on a string. -/
def jsToLowerStr (s : String) : String := String.mk (s.data.map jsToLower)

/-- The JS WhiteSpace/LineTerminator characters removed by
String.prototype.trim (space, tab, LF, VT, FF, CR, NBSP, BOM, LS, PS). -/
def isJsWhitespace (c : Char) : Bool :=
  c.toNat = 32 || c.toNat = 9 || c.toNat = 10 || c.toNat = 11 || c.toNat = 12 ||
    c.toNat = 13 || c.toNat = 160 || c.toNat = 65279 || c.toNat = 8232 ||
    c.toNat = 8233

/-- Model of JS String.prototype.trim: drop whitespace at both ends. -/
def jsTrim (s : String) : String :=
  String.mk (List.rdropWhile isJsWhitespace (s.data.dropWhile isJsWhitespace))

/-- Substring search on character lists (leftmost test, true on empty
pattern), the core of String.prototype.includes. -/
def listIncludes (pat : List Char) : List Char → Bool
  | [] => pat.isEmpty
  | c :: t => pat.isPrefixOf (c :: t) || listIncludes pat t

/-- Model of JS hay.includes(pat). -/
def strIncludes (hay pat : String) : Bool := listIncludes pat.data hay.data

/-! ### Types (src/backend/src/types): language and education enums -/

/-- The GermanLevel enum (also used for English levels). -/
inductive GermanLevel
  | NONE
  | A1
  | A2
  | B1
  | B2
  | C1
  | C2
  | NATIVE
deriving DecidableEq, Repr

/-- The EducationLevel enum. -/
inductive EducationLevel
  | NONE
  | HAUPTSCHULE
  | REALSCHULE
  | ABITUR
  | FACHABITUR
deriving DecidableEq, Repr

/-! ### gemini-pipeline.ts mappers -/

/-- mapGermanLevel(input?): sentinel values map to NONE, then keyword
search on the lowercased input, with default NONE. `Option.none` models
both undefined and null; the empty string is JS-falsy and handled by the
same guard. -/
def mapGermanLevel (input : Option String) : GermanLevel :=
  match input with
  | Option.none => GermanLevel.NONE
  | some s =>
    if s = "" || s = "null" || s = "not mentioned" || s = "none" || s = "None" then
      GermanLevel.NONE
    else
      let lower := jsToLowerStr s
      if strIncludes lower "muttersprache" || strIncludes lower "native" ||
          strIncludes lower "fluent" then GermanLevel.C2
      else if strIncludes lower "c2" then GermanLevel.C2
      else if strIncludes lower "c1" then GermanLevel.C1
      else if strIncludes lower "verhandlungssicher" then GermanLevel.C1
      else if strIncludes lower "b2" then GermanLevel.B2
      else if strIncludes lower "good" || strIncludes lower "sehr gut" ||
          strIncludes lower "gut" then GermanLevel.B2
      else if strIncludes lower "b1" then GermanLevel.B1
      else if strIncludes lower "intermediate" || strIncludes lower "mittelstufe" then
        GermanLevel.B1
      else if strIncludes lower "a2" then GermanLevel.A2
      else if strIncludes lower "a1" then GermanLevel.A1
      else GermanLevel.NONE

/-- mapEducationLevel(input?): falsy input defaults to REALSCHULE, then
keyword search on the lowercased input, with default REALSCHULE. -/
def mapEducationLevel (input : Option String) : EducationLevel :=
  match input with
  | Option.none => EducationLevel.REALSCHULE
  | some s =>
    if s = "" then EducationLevel.REALSCHULE
    else
      let lower := jsToLowerStr s
      if strIncludes lower "abitur" && !strIncludes lower "fach" then EducationLevel.ABITUR
      else if strIncludes lower "fachabitur" then EducationLevel.FACHABITUR
      else if strIncludes lower "realschule" then EducationLevel.REALSCHULE
      else if strIncludes lower "hauptschule" then EducationLevel.HAUPTSCHULE
      else if strIncludes lower "keine" || strIncludes lower "none" then EducationLevel.NONE
      else EducationLevel.REALSCHULE

/-- mapTariffType(input?): sentinel values map to NONE, then keyword search
on the lowercased input, with default NONE. -/
def mapTariffType (input : Option String) : TariffType :=
  match input with
  | Option.none => TariffType.NONE
  | some s =>
    if s = "" || s = "null" || s = "not mentioned" || s = "none" || s = "None" then
      TariffType.NONE
    else
      let lower := jsToLowerStr s
      if strIncludes lower "ig metall" || strIncludes lower "metall" then TariffType.IG_METALL
      else if strIncludes lower "ver.di" || strIncludes lower "verdi" then TariffType.VERDI
      else if strIncludes lower "ig bce" || strIncludes lower "chemie" ||
          strIncludes lower "bergbau" then TariffType.IG_BCE
      else if strIncludes lower "ig bau" || strIncludes lower "bau" then TariffType.IG_BAU
      else if strIncludes lower "ngg" || strIncludes lower "nahrung" then TariffType.NGG
      else if strIncludes lower "tvöd" || strIncludes lower "öffentlich" then TariffType.TVOD
      else if strIncludes lower "tv-l" || strIncludes lower "länder" then TariffType.TV_L
      else if strIncludes lower "it tarif" || strIncludes lower "it-tarif" then
        TariffType.IT_TARIFVERTRAG
      else if strIncludes lower "einzelhandel" || strIncludes lower "handel" then
        TariffType.EINZELHANDEL
      else if strIncludes lower "bank" || strIncludes lower "sparkasse" then TariffType.BANKING
      else if strIncludes lower "tarif" then TariffType.OTHER
      else TariffType.NONE

/-- The keyword substrings tested by mapGermanLevel, in source order. -/
def germanLevelKeywords : List String :=
  ["muttersprache", "native", "fluent", "c2", "c1", "verhandlungssicher", "b2",
   "good", "sehr gut", "gut", "b1", "intermediate", "mittelstufe", "a2", "a1"]

/-- The keyword substrings tested by mapEducationLevel, in source order. -/
def educationKeywords : List String :=
  ["abitur", "fachabitur", "realschule", "hauptschule", "keine", "none"]

/-- The keyword substrings tested by mapTariffType, in source order. -/
def tariffKeywords : List String :=
  ["ig metall", "metall", "ver.di", "verdi", "ig bce", "chemie", "bergbau",
   "ig bau", "bau", "ngg", "nahrung", "tvöd", "öffentlich", "tv-l", "länder",
   "it tarif", "it-tarif", "einzelhandel", "handel", "bank", "sparkasse", "tarif"]

/-! ### normalizer.ts: normalizeTechStack -/

/-- First-occurrence deduplication, modelling the insertion-order semantics
of `Array.from(new Set(xs))`. -/
def jsDedup : List String → List String
  | [] => []
  | x :: xs => x :: jsDedup (xs.filter (fun y => y != x))
termination_by l => l.length
decreasing_by
  simpa using Nat.lt_succ_of_le (List.length_filter_le _ xs)

/-- Model of JS Array.prototype.sort() on deduplicated strings:
lexicographic ascending order. -/
def jsSortStrings (l : List String) : List String :=
  List.insertionSort (fun a b => a ≤ b) l

/-- normalizeTechStack: lowercase then trim each entry, drop empties,
deduplicate, sort. -/
def normalizeTechStack (stack : List String) : List String :=
  jsSortStrings (jsDedup
    ((stack.map (fun tech => jsTrim (jsToLowerStr tech))).filter
      (fun tech => tech.length > 0)))

/-! ### normalizer.ts: normalizeDate

The returned JS Date value is modelled as `Option CalDate`: `some d` is a
valid calendar date (UTC midnight), `Option.none` is an Invalid Date
object. `normalizeDate` itself returns `Option (Option CalDate)` where the
outer `Option.none` is the JS null return. Host-dependent generic date
parsing (`new Date(arbitraryString)`) is an oracle parameter; the
deterministic ECMA-defined parse of 4-digit-year ISO strings
"YYYY-MM-DD" built by the function itself is modelled by `jsNewDateISO`. -/

/-- A concrete calendar date. -/
structure CalDate where
  year : Nat
  month : Nat
  day : Nat
deriving DecidableEq, Repr

/-- Gregorian leap-year rule used by JS Date. -/
def isLeapYear (y : Nat) : Bool := (y % 4 = 0 && y % 100 ≠ 0) || y % 400 = 0

/-- Number of days in a month (0 for an out-of-range month). -/
def daysInMonth (y m : Nat) : Nat :=
  if m = 1 || m = 3 || m = 5 || m = 7 || m = 8 || m = 10 || m = 12 then 31
  else if m = 4 || m = 6 || m = 9 || m = 11 then 30
  else if m = 2 then (if isLeapYear y then 29 else 28)
  else 0

/-- ECMA semantics of new Date("YYYY-MM-DD") with a 4-digit year field:
a valid date exactly when the components are calendar-valid, otherwise an
Invalid Date. -/
def jsNewDateISO (y m d : Nat) : Option CalDate :=
  if 1 ≤ m && m ≤ 12 && 1 ≤ d && d ≤ daysInMonth y m then some ⟨y, m, d⟩
  else Option.none

/-- Left-pad a number below 100 to two digits (String.padStart(2, '0')). -/
def pad2 (n : Nat) : String := if n < 10 then "0" ++ toString n else toString n

/-- The date string template built by normalizeDate. -/
def isoTemplate (y m d : Nat) : String :=
  toString y ++ "-" ++ pad2 m ++ "-" ++ pad2 d

/-- Regex word character \w = [A-Za-z0-9_]. -/
def jsWordChar (c : Char) : Bool :=
  c.isDigit || (65 ≤ c.toNat && c.toNat ≤ 90) ||
    (97 ≤ c.toNat && c.toNat ≤ 122) || c.toNat = 95

/-- Take exactly n digit characters from the front of the list. -/
def grabDigits (n : Nat) (l : List Char) : Option (List Char × List Char) :=
  let ds := l.take n
  if ds.length = n then
    if ds.all Char.isDigit then some (ds, l.drop n) else Option.none
  else Option.none

/-- Numeric value of a digit string (parseInt on digits). -/
def digitsToNat (ds : List Char) : Nat :=
  ds.foldl (fun a c => a * 10 + (c.toNat - 48)) 0

/-- Match a literal dot at the front of the list. -/
def matchDot : List Char → Option (List Char)
  | c :: t => if c = '.' then some t else Option.none
  | [] => Option.none

/-- One backtracking alternative of /(\d{1,2})\.(\d{1,2})\.(\d{4})/ with
fixed day and month digit counts. -/
def tryNumericDMY (dn mn : Nat) (l : List Char) : Option (Nat × Nat × Nat) :=
  match grabDigits dn l with
  | some (ds, r1) =>
    match matchDot r1 with
    | some r2 =>
      match grabDigits mn r2 with
      | some (ms, r3) =>
        match matchDot r3 with
        | some r4 =>
          match grabDigits 4 r4 with
          | some (ys, _) => some (digitsToNat ds, digitsToNat ms, digitsToNat ys)
          | Option.none => Option.none
        | Option.none => Option.none
      | Option.none => Option.none
    | Option.none => Option.none
  | Option.none => Option.none

/-- Anchored match of the numeric date regex, greedy quantifiers first. -/
def matchNumericAt (l : List Char) : Option (Nat × Nat × Nat) :=
  match tryNumericDMY 2 2 l with
  | some r => some r
  | Option.none =>
    match tryNumericDMY 2 1 l with
    | some r => some r
    | Option.none =>
      match tryNumericDMY 1 2 l with
      | some r => some r
      | Option.none => tryNumericDMY 1 1 l

/-- Leftmost search of /(\d{1,2})\.(\d{1,2})\.(\d{4})/, as (day, month,
year) capture values. -/
def searchNumericDMY : List Char → Option (Nat × Nat × Nat)
  | [] => Option.none
  | c :: t =>
    match matchNumericAt (c :: t) with
    | some r => some r
    | Option.none => searchNumericDMY t

/-- Greedy (\d{2,4}) at the front of the list. -/
def tryYearDigits (l : List Char) : Option Nat :=
  match grabDigits 4 l with
  | some (ys, _) => some (digitsToNat ys)
  | Option.none =>
    match grabDigits 3 l with
    | some (ys, _) => some (digitsToNat ys)
    | Option.none =>
      match grabDigits 2 l with
      | some (ys, _) => some (digitsToNat ys)
      | Option.none => Option.none

/-- Backtracking over the greedy (\w+) capture: try month lengths j, j-1,
..., 1, each followed by \s* and (\d{2,4}) on the remaining input. -/
def tryMonthSplit (w tail : List Char) : Nat → Option (String × Nat)
  | 0 => Option.none
  | j + 1 =>
    let rest := (w.drop (j + 1)) ++ tail
    match tryYearDigits (rest.dropWhile isJsWhitespace) with
    | some yv => some (String.mk (w.take (j + 1)), yv)
    | Option.none => tryMonthSplit w tail j

/-- One backtracking alternative of /(\d{1,2})\.\s*(\w+)\s*(\d{2,4})/ with
a fixed day digit count. -/
def tryTextualDay (dn : Nat) (l : List Char) : Option (Nat × String × Nat) :=
  match grabDigits dn l with
  | some (ds, r1) =>
    match matchDot r1 with
    | some r2 =>
      let r3 := r2.dropWhile isJsWhitespace
      let w := r3.takeWhile jsWordChar
      let tail := r3.drop w.length
      if w.length = 0 then Option.none
      else
        match tryMonthSplit w tail w.length with
        | some (mname, yv) => some (digitsToNat ds, mname, yv)
        | Option.none => Option.none
    | Option.none => Option.none
  | Option.none => Option.none

/-- Anchored match of the textual date regex. -/
def matchTextualAt (l : List Char) : Option (Nat × String × Nat) :=
  match tryTextualDay 2 l with
  | some r => some r
  | Option.none => tryTextualDay 1 l

/-- Leftmost search of /(\d{1,2})\.\s*(\w+)\s*(\d{2,4})/, as (day, month
name, year) capture values. -/
def searchTextualDMY : List Char → Option (Nat × String × Nat)
  | [] => Option.none
  | c :: t =>
    match matchTextualAt (c :: t) with
    | some r => some r
    | Option.none => searchTextualDMY t

/-- The monthNames record of normalizeDate. -/
def monthNames (s : String) : Option Nat :=
  if s = "januar" || s = "january" || s = "jan" then some 1
  else if s = "februar" || s = "february" || s = "feb" then some 2
  else if s = "märz" || s = "march" || s = "mär" then some 3
  else if s = "april" || s = "apr" then some 4
  else if s = "mai" || s = "may" then some 5
  else if s = "juni" || s = "june" || s = "jun" then some 6
  else if s = "juli" || s = "july" || s = "jul" then some 7
  else if s = "august" || s = "aug" then some 8
  else if s = "september" || s = "sep" then some 9
  else if s = "oktober" || s = "october" || s = "okt" then some 10
  else if s = "november" || s = "nov" then some 11
  else if s = "dezember" || s = "december" || s = "dez" then some 12
  else Option.none

/-- The final fallback of normalizeDate: generic parsing via the host,
returning the date when valid and null otherwise. -/
def dateFallback (hostParse : String → Option CalDate) (cleaned : String) :
    Option (Option CalDate) :=
  match hostParse cleaned with
  | some d => some (some d)
  | Option.none => Option.none

/-- normalizeDate(dateStr): null on empty input; otherwise trim+lowercase,
then try the numeric pattern, the textual pattern with the month-name
table (two-digit years mapped to 2000+YY), and finally generic parsing.
A pattern match returns the constructed Date object unconditionally, even
when its components are not calendar-valid. -/
def normalizeDate (hostParse : String → Option CalDate) (dateStr : String) :
    Option (Option CalDate) :=
  if dateStr = "" then Option.none
  else
    let cleaned := jsToLowerStr (jsTrim dateStr)
    match searchNumericDMY cleaned.data with
    | some (d, m, y) => some (jsNewDateISO y m d)
    | Option.none =>
      match searchTextualDMY cleaned.data with
      | some (d, mname, yv) =>
        match monthNames mname with
        | some mn =>
          let fullYear := if yv < 100 then 2000 + yv else yv
          if 1000 ≤ fullYear then some (jsNewDateISO fullYear mn d)
          else some (hostParse (isoTemplate fullYear mn d))
        | Option.none => dateFallback hostParse cleaned
      | Option.none => dateFallback hostParse cleaned

/-! ### Miner (JobMiner): per-key Gemini rate limiting

One API key's quota state, driven by the events of analyzeWithGemini.
Times are milliseconds on a monotone clock; with several keys each key has
its own independent copy of this state, and round-robin rotation only
selects which key receives the next event. -/

/-- The per-key keyStats record of JobMiner. -/
structure KeyStats where
  lastCallTime : Nat
  callCount : Nat
  resetTime : Nat
deriving DecidableEq, Repr

/-- The window test of canUseCurrentKey: more than 60s since the window
started. -/
def windowExpired (now : Nat) (s : KeyStats) : Bool :=
  decide (now - s.resetTime > 60000)

/-- canUseCurrentKey: reset the counter when the 60s window has expired
(returning the mutated stats), otherwise usable iff fewer than 14 calls
were counted in the current window. -/
def canUseCurrentKey (now : Nat) (s : KeyStats) : Bool × KeyStats :=
  if windowExpired now s then (true, { s with callCount := 0, resetTime := now })
  else (decide (s.callCount < 14), s)

/-- recordApiCall: note the call time and increment the window counter. -/
def recordApiCall (now : Nat) (s : KeyStats) : KeyStats :=
  { s with lastCallTime := now, callCount := s.callCount + 1 }

/-- Events a single key can experience inside analyzeWithGemini:
an extraction attempt routed to this key at a given time (recorded only if
canUseCurrentKey allows it), the all-keys-exhausted path (sleep until the
window reset, zero the counter, then record the call), and the 429 handler
that marks the key as saturated (callCount := 15). -/
inductive KeyEvent
  | attempt (t : Nat)
  | exhaustedRetry (t : Nat)
  | saturate
deriving DecidableEq, Repr

/-- Simulation state: the key's stats plus two observers — the number of
calls recorded since the current window started, and the timestamps of all
recorded calls. -/
structure MinerSim where
  stats : KeyStats
  windowCalls : Nat
  recorded : List Nat
deriving DecidableEq, Repr

/-- Initial state: stats as initialized in the JobMiner constructor at
clock 0. -/
def minerInit : MinerSim :=
  { stats := { lastCallTime := 0, callCount := 0, resetTime := 0 }
    windowCalls := 0
    recorded := [] }

/-- One event step of the simulation. -/
def minerStep (m : MinerSim) : KeyEvent → MinerSim
  | .attempt t =>
    let r := canUseCurrentKey t m.stats
    if r.1 then
      { stats := recordApiCall t r.2
        windowCalls := if windowExpired t m.stats then 1 else m.windowCalls + 1
        recorded := m.recorded ++ [t] }
    else { m with stats := r.2 }
  | .exhaustedRetry t =>
    { stats := recordApiCall t { m.stats with callCount := 0, resetTime := t }
      windowCalls := 1
      recorded := m.recorded ++ [t] }
  | .saturate => { m with stats := { m.stats with callCount := 15 } }

/-- Run a sequence of events from the initial state. -/
def minerRun (events : List KeyEvent) : MinerSim :=
  events.foldl minerStep minerInit

/-! ### Miner (JobMiner): the three-phase mine() run

The database is a list of stored postings; external effects (page scrape,
AI analysis) are oracle parameters; `now` is the wall-clock date written
into last_checked_at. The returned Bool reports whether phase 3 (marking
unlisted jobs inactive) was executed. -/

/-- A row of the listing page. -/
structure ListedJob where
  url : String
  title : String
  company : String
  vacancyCount : Option Nat
deriving DecidableEq, Repr

/-- A stored job posting (the fields the miner reads or writes). -/
structure StoredJob where
  id : Nat
  original_link : Option String
  is_active : Bool
  vacancy_count : Option Nat
  last_checked_at : Option Nat
deriving DecidableEq, Repr

/-- External calls made while processing a new job. -/
structure MinerOracles where
  scrapeJobPage : String → Option String
  analyzeWithGemini : String → String → Option StoredJob

/-- Configuration of a mining run. -/
structure MinerConfig where
  maxJobsPerRun : Nat
  dryRun : Bool
  enrichSalary : Bool
deriving DecidableEq, Repr

/-- The JS `x || 1` default applied to vacancy counts (absent and 0 both
fall back to 1). -/
def jsOr1 (o : Option Nat) : Nat :=
  match o with
  | some v => if v = 0 then 1 else v
  | Option.none => 1

/-- Job.findOne({ original_link: url }). -/
def findOneByLink (db : List StoredJob) (url : String) : Option StoredJob :=
  db.find? (fun j => j.original_link == some url)

/-- Job.findByIdAndUpdate. -/
def updateById (db : List StoredJob) (i : Nat) (f : StoredJob → StoredJob) :
    List StoredJob :=
  db.map (fun j => if j.id = i then f j else j)

/-- Phase 2 of mine(): process each listed job until maxJobsPerRun is
reached — refresh existing postings (is_active := true, vacancy count,
last_checked_at), scrape + analyze + insert new ones; scrape or analysis
failures skip the job without counting it. -/
def processListedJobs (cfg : MinerConfig) (oracle : MinerOracles) (now : Nat) :
    List ListedJob → Nat → List StoredJob → List StoredJob
  | [], _, db => db
  | lj :: rest, processed, db =>
    if processed ≥ cfg.maxJobsPerRun then db
    else
      match findOneByLink db lj.url with
      | some existing =>
        let currentVacancy := jsOr1 existing.vacancy_count
        let newVacancy := jsOr1 lj.vacancyCount
        let db1 :=
          if cfg.dryRun then db
          else if currentVacancy ≠ newVacancy then
            updateById db existing.id (fun j =>
              { j with vacancy_count := some newVacancy, is_active := true
                       last_checked_at := some now })
          else
            updateById db existing.id (fun j =>
              { j with is_active := true, last_checked_at := some now })
        processListedJobs cfg oracle now rest (processed + 1) db1
      | Option.none =>
        match oracle.scrapeJobPage lj.url with
        | Option.none => processListedJobs cfg oracle now rest processed db
        | some html =>
          match oracle.analyzeWithGemini html lj.url with
          | Option.none => processListedJobs cfg oracle now rest processed db
          | some aij =>
            let newJob := { aij with vacancy_count := some (jsOr1 lj.vacancyCount) }
            let db1 := if cfg.dryRun then db else db ++ [newJob]
            processListedJobs cfg oracle now rest (processed + 1) db1

/-- Phase 3 of mine(): mark every active stored posting whose
original_link is not on the listing page as inactive (postings without a
link are skipped, nothing is deleted). -/
def markUnlistedJobsAsInactive (dryRun : Bool) (now : Nat) (listedUrls : List String)
    (db : List StoredJob) : List StoredJob :=
  db.map (fun j =>
    if j.is_active then
      match j.original_link with
      | Option.none => j
      | some l =>
        if listedUrls.contains l then j
        else if dryRun then j
        else { j with is_active := false, last_checked_at := some now }
    else j)

/-- mine(): phase 1 yields the listing; an empty listing ends the run
before phases 2 and 3; otherwise phase 2 processes the listed jobs and
phase 3 marks unlisted postings inactive. The Bool is true iff phase 3
ran. -/
def mine (cfg : MinerConfig) (oracle : MinerOracles) (now : Nat)
    (allListedJobs : List ListedJob) (db : List StoredJob) :
    List StoredJob × Bool :=
  if allListedJobs.length = 0 then (db, false)
  else
    let listedJobUrls := allListedJobs.map (fun j => j.url)
    let db2 := processListedJobs cfg oracle now allListedJobs 0 db
    (markUnlistedJobsAsInactive cfg.dryRun now listedJobUrls db2, true)

/-- Spec predicate for C5: how the average field must relate to the other
two salary fields of a resolution result. -/
def averageSpec (r : SalaryResolutionResult) : Prop :=
  (∀ f t, r.firstYearSalary = some f → r.thirdYearSalary = some t →
    r.average = some (jsRound ((f + t) / 2))) ∧
  (∀ f, r.firstYearSalary = some f → r.thirdYearSalary = Option.none →
    r.average = some f) ∧
  (r.firstYearSalary = Option.none → r.average = Option.none)

/-- Spec predicate for C10: structural invariant tying the fields of a
resolution result to each other and to the scraped third-year argument. -/
def resultInvariant (scrapedThirdYear : Option ℚ) (r : SalaryResolutionResult) : Prop :=
  (r.firstYearSalary.isSome ↔ r.source ≠ SalarySource.none) ∧
  (r.average.isSome ↔ r.firstYearSalary.isSome) ∧
  (∀ t, r.thirdYearSalary = some t → scrapedThirdYear = some t)

/-! ## Theorems -/

/-- C1: when the scraped first-year salary is absent and the tariff type is
absent or NONE, both resolvers return the blank result: source is none and
no firstYearSalary, thirdYearSalary or average is populated. -/
theorem C1_salary_never_fabricated
    (fetch : String → String → FetchOutcome)
    (scrapedThirdYear : Option ℚ) (tariffType : Option TariffType)
    (companyName originalLink : Option String)
    (h : tariffType = Option.none ∨ tariffType = some TariffType.NONE) :
    resolveFirstYearSalary fetch Option.none scrapedThirdYear tariffType companyName originalLink
      = { source := SalarySource.none } ∧
    resolveFirstYearSalaryFast Option.none scrapedThirdYear tariffType
      = { source := SalarySource.none } := by
  rcases h with h | h <;> subst h <;>
    simp [resolveFirstYearSalary, resolveFirstYearSalaryFast, resolveNoScraped,
      resolveNoScrapedFast]

/-- Witness for C1 at a concrete input. -/
theorem C1_salary_never_fabricated_witness :
    resolveFirstYearSalary (fun _ _ => Except.error ()) Option.none (some 1200)
        (some TariffType.NONE) (some "ACME") (some "https://a.example")
      = { source := SalarySource.none } ∧
    resolveFirstYearSalaryFast Option.none (some 1200) (some TariffType.NONE)
      = { source := SalarySource.none } :=
  C1_salary_never_fabricated (fun _ _ => Except.error ()) (some 1200)
    (some TariffType.NONE) (some "ACME") (some "https://a.example") (Or.inr rfl)

/-- Counterexample to C2 as stated: a scraped first-year value of 0 is a
given value, yet the resolver falls through to the tariff branch instead of
returning source scraped with that exact value. -/
theorem C2_counterexample :
    resolveFirstYearSalaryFast (some 0) Option.none (some TariffType.IG_METALL)
        = { firstYearSalary := some 1150, average := some 1150,
            source := SalarySource.tariff_standard,
            tariffUsed := some TariffType.IG_METALL } ∧
    (resolveFirstYearSalaryFast (some 0) Option.none (some TariffType.IG_METALL)).source
        ≠ SalarySource.scraped := by
  constructor <;> decide

/-- C2 (amended to a nonzero scraped value): given a nonzero scraped
first-year value, both resolvers return source scraped with exactly that
value, independent of tariff type, company name, link and the company
website fetch oracle. -/
theorem C2_scraped_priority
    (fetch : String → String → FetchOutcome)
    (f : ℚ) (hf : f ≠ 0) (scrapedThirdYear : Option ℚ) (tariffType : Option TariffType)
    (companyName originalLink : Option String) :
    resolveFirstYearSalary fetch (some f) scrapedThirdYear tariffType companyName originalLink
      = scrapedResult f scrapedThirdYear ∧
    resolveFirstYearSalaryFast (some f) scrapedThirdYear tariffType
      = scrapedResult f scrapedThirdYear ∧
    (scrapedResult f scrapedThirdYear).source = SalarySource.scraped ∧
    (scrapedResult f scrapedThirdYear).firstYearSalary = some f := by
  refine ⟨?_, ?_, rfl, rfl⟩ <;>
    simp [resolveFirstYearSalary, resolveFirstYearSalaryFast, hf]

/-- Witness for C2 at a concrete input. -/
theorem C2_scraped_priority_witness :
    resolveFirstYearSalary (fun _ _ => Except.ok (some { firstYearSalary := some 999 }))
        (some 1100) (some 1300) (some TariffType.VERDI) (some "ACME") (some "https://a.example")
      = scrapedResult 1100 (some 1300) ∧
    resolveFirstYearSalaryFast (some 1100) (some 1300) (some TariffType.VERDI)
      = scrapedResult 1100 (some 1300) ∧
    (scrapedResult 1100 (some 1300)).source = SalarySource.scraped ∧
    (scrapedResult 1100 (some 1300)).firstYearSalary = some 1100 :=
  C2_scraped_priority (fun _ _ => Except.ok (some { firstYearSalary := some 999 }))
    1100 (by norm_num) (some 1300) (some TariffType.VERDI) (some "ACME")
    (some "https://a.example")

/-- C3: whenever the company-website step would find no (truthy) first-year
salary — the fetch throws, returns null, or returns data without a truthy
firstYearSalary — the fast resolver agrees exactly with the full resolver. -/
theorem C3_fast_agrees_with_full
    (fetch : String → String → FetchOutcome)
    (hfetch : ∀ cn ol d, fetch cn ol = Except.ok (some d) →
      jsTruthy d.firstYearSalary = false)
    (scrapedFirstYear scrapedThirdYear : Option ℚ) (tariffType : Option TariffType)
    (companyName originalLink : Option String) :
    resolveFirstYearSalary fetch scrapedFirstYear scrapedThirdYear tariffType
        companyName originalLink
      = resolveFirstYearSalaryFast scrapedFirstYear scrapedThirdYear tariffType := by
  have hno : ∀ s3 t cn ol,
      resolveWithTariff fetch s3 t cn ol = tariffStandardResult t s3 := by
    intro s3 t cn ol
    unfold resolveWithTariff
    rcases cn with _ | cn <;> rcases ol with _ | ol <;> simp only
    by_cases hc : cn ≠ "" ∧ ol ≠ ""
    · simp only [if_pos hc]
      rcases hout : fetch cn ol with e | d
      · simp
      · rcases d with _ | d
        · simp
        · have := hfetch cn ol d hout
          simp [this]
    · simp [if_neg hc]
  rcases scrapedFirstYear with _ | f
  · show resolveNoScraped fetch _ _ _ _ = resolveNoScrapedFast _ _
    unfold resolveNoScraped resolveNoScrapedFast
    rcases tariffType with _ | t
    · rfl
    · by_cases ht : t = TariffType.NONE <;> simp [ht, hno]
  · by_cases hf : f ≠ 0
    · simp [resolveFirstYearSalary, resolveFirstYearSalaryFast, hf]
    · simp only [resolveFirstYearSalary, resolveFirstYearSalaryFast, if_neg hf]
      unfold resolveNoScraped resolveNoScrapedFast
      rcases tariffType with _ | t
      · rfl
      · by_cases ht : t = TariffType.NONE <;> simp [ht, hno]

/-- Witness for C3 at a concrete input. -/
theorem C3_fast_agrees_with_full_witness :
    resolveFirstYearSalary (fun _ _ => Except.ok Option.none) Option.none (some 1400)
        (some TariffType.IG_BCE) (some "ACME") (some "https://a.example")
      = resolveFirstYearSalaryFast Option.none (some 1400) (some TariffType.IG_BCE) :=
  C3_fast_agrees_with_full (fun _ _ => Except.ok Option.none)
    (fun _ _ _ h => by cases h) Option.none (some 1400) (some TariffType.IG_BCE)
    (some "ACME") (some "https://a.example")

/-- C5: in every source branch of both resolvers, the average is
round((first + third) / 2) when the result carries both a first-year and a
third-year value, equals the first-year value when only it is present, and
is absent when no first-year value was resolved. -/
theorem C5_average_computation
    (fetch : String → String → FetchOutcome)
    (scrapedFirstYear scrapedThirdYear : Option ℚ) (tariffType : Option TariffType)
    (companyName originalLink : Option String) :
    averageSpec (resolveFirstYearSalary fetch scrapedFirstYear scrapedThirdYear tariffType
      companyName originalLink) ∧
    averageSpec (resolveFirstYearSalaryFast scrapedFirstYear scrapedThirdYear tariffType) := by
  have hbranch : ∀ (f : ℚ) (s3 : Option ℚ) (src : SalarySource) (tu : Option TariffType),
      averageSpec { firstYearSalary := some f
                    thirdYearSalary := withScrapedThird s3
                    average := some (salaryAverage f s3)
                    source := src
                    tariffUsed := tu } := by
    intro f s3 src tu
    refine ⟨?_, ?_, ?_⟩
    · intro f' t hf ht
      simp only [Option.some.injEq] at hf
      subst hf
      rcases s3 with _ | v
      · simp [withScrapedThird, jsTruthy] at ht
      · by_cases hv : v = 0
        · simp [withScrapedThird, jsTruthy, hv] at ht
        · have hvt : v = t := by
            simpa [withScrapedThird, jsTruthy, hv] using ht
          subst hvt
          simp [salaryAverage, hv]
    · intro f' hf ht
      simp only [Option.some.injEq] at hf
      subst hf
      rcases s3 with _ | v
      · simp [salaryAverage]
      · by_cases hv : v = 0
        · simp [salaryAverage, hv]
        · simp [withScrapedThird, jsTruthy, hv] at ht
    · intro h
      cases h
  have hblank : ∀ (tu : Option TariffType),
      averageSpec { source := SalarySource.none, tariffUsed := tu } := by
    intro tu
    refine ⟨?_, ?_, ?_⟩ <;> intros <;> simp_all
  have hstd : ∀ (t : TariffType) (s3 : Option ℚ),
      averageSpec (tariffStandardResult t s3) := by
    intro t s3
    unfold tariffStandardResult
    rcases h : getTariffFirstYearSalary (some t) with _ | v
    · exact hblank (some t)
    · exact hbranch v s3 SalarySource.tariff_standard (some t)
  have hnofast : ∀ (s3 : Option ℚ) (tt : Option TariffType),
      averageSpec (resolveNoScrapedFast s3 tt) := by
    intro s3 tt
    unfold resolveNoScrapedFast
    rcases tt with _ | t
    · exact hblank Option.none
    · by_cases ht : t = TariffType.NONE
      · simpa [ht] using hblank Option.none
      · simpa [ht] using hstd t s3
  have hnofull : ∀ (s3 : Option ℚ) (tt : Option TariffType) (cn ol : Option String),
      averageSpec (resolveNoScraped fetch s3 tt cn ol) := by
    intro s3 tt cn ol
    unfold resolveNoScraped
    rcases tt with _ | t
    · exact hblank Option.none
    · by_cases ht : t = TariffType.NONE
      · simpa [ht] using hblank Option.none
      · simp only [ht, if_neg, ite_false]
        unfold resolveWithTariff
        rcases hw : (match cn, ol with
          | some c, some o =>
            if c ≠ "" ∧ o ≠ "" then
              match fetch c o with
              | Except.ok (some d) =>
                if jsTruthy d.firstYearSalary then d.firstYearSalary else Option.none
              | _ => Option.none
            else Option.none
          | _, _ => (Option.none : Option ℚ)) with _ | v
        · simp only [hw]
          exact hstd t s3
        · simp only [hw]
          exact hbranch v s3 SalarySource.company_website (some t)
  constructor
  · unfold resolveFirstYearSalary
    rcases scrapedFirstYear with _ | f
    · exact hnofull scrapedThirdYear tariffType companyName originalLink
    · by_cases hf : f ≠ 0
      · simpa [hf] using hbranch f scrapedThirdYear SalarySource.scraped Option.none
      · simpa [hf] using hnofull scrapedThirdYear tariffType companyName originalLink
  · unfold resolveFirstYearSalaryFast
    rcases scrapedFirstYear with _ | f
    · exact hnofast scrapedThirdYear tariffType
    · by_cases hf : f ≠ 0
      · simpa [hf] using hbranch f scrapedThirdYear SalarySource.scraped Option.none
      · simpa [hf] using hnofast scrapedThirdYear tariffType

/-- Witness for C5 at a concrete input. -/
theorem C5_average_computation_witness :
    averageSpec (resolveFirstYearSalary (fun _ _ => Except.error ()) (some 1001) (some 1200)
      Option.none Option.none Option.none) ∧
    averageSpec (resolveFirstYearSalaryFast (some 1001) (some 1200) Option.none) :=
  C5_average_computation (fun _ _ => Except.error ()) (some 1001) (some 1200)
    Option.none Option.none Option.none

/-- C10: in every result of either resolver, firstYearSalary is present iff
the source is not none, average is present iff firstYearSalary is, and a
present thirdYearSalary is exactly the scraped third-year argument. -/
theorem C10_result_invariant
    (fetch : String → String → FetchOutcome)
    (scrapedFirstYear scrapedThirdYear : Option ℚ) (tariffType : Option TariffType)
    (companyName originalLink : Option String) :
    resultInvariant scrapedThirdYear
      (resolveFirstYearSalary fetch scrapedFirstYear scrapedThirdYear tariffType
        companyName originalLink) ∧
    resultInvariant scrapedThirdYear
      (resolveFirstYearSalaryFast scrapedFirstYear scrapedThirdYear tariffType) := by
  have hthird : ∀ (t : ℚ), withScrapedThird scrapedThirdYear = some t →
      scrapedThirdYear = some t := by
    intro t ht
    unfold withScrapedThird at ht
    split at ht
    · exact ht
    · cases ht
  have hbranch : ∀ (f : ℚ) (src : SalarySource) (tu : Option TariffType),
      src ≠ SalarySource.none →
      resultInvariant scrapedThirdYear
        { firstYearSalary := some f
          thirdYearSalary := withScrapedThird scrapedThirdYear
          average := some (salaryAverage f scrapedThirdYear)
          source := src
          tariffUsed := tu } := by
    intro f src tu hsrc
    exact ⟨by simpa using hsrc, by simp, hthird⟩
  have hblank : ∀ (tu : Option TariffType),
      resultInvariant scrapedThirdYear { source := SalarySource.none, tariffUsed := tu } := by
    intro tu
    refine ⟨by simp, by simp, ?_⟩
    intro t ht
    cases ht
  have hstd : ∀ (t : TariffType),
      resultInvariant scrapedThirdYear (tariffStandardResult t scrapedThirdYear) := by
    intro t
    unfold tariffStandardResult
    rcases getTariffFirstYearSalary (some t) with _ | v
    · exact hblank (some t)
    · exact hbranch v SalarySource.tariff_standard (some t) (by simp)
  have hnofast : ∀ (tt : Option TariffType),
      resultInvariant scrapedThirdYear (resolveNoScrapedFast scrapedThirdYear tt) := by
    intro tt
    unfold resolveNoScrapedFast
    rcases tt with _ | t
    · exact hblank Option.none
    · by_cases ht : t = TariffType.NONE
      · simpa [ht] using hblank Option.none
      · simpa [ht] using hstd t
  have hnofull : ∀ (tt : Option TariffType) (cn ol : Option String),
      resultInvariant scrapedThirdYear
        (resolveNoScraped fetch scrapedThirdYear tt cn ol) := by
    intro tt cn ol
    unfold resolveNoScraped
    rcases tt with _ | t
    · exact hblank Option.none
    · by_cases ht : t = TariffType.NONE
      · simpa [ht] using hblank Option.none
      · simp only [ht, ite_false]
        unfold resolveWithTariff
        rcases hw : (match cn, ol with
          | some c, some o =>
            if c ≠ "" ∧ o ≠ "" then
              match fetch c o with
              | Except.ok (some d) =>
                if jsTruthy d.firstYearSalary then d.firstYearSalary else Option.none
              | _ => Option.none
            else Option.none
          | _, _ => (Option.none : Option ℚ)) with _ | v
        · simp only [hw]
          exact hstd t
        · simp only [hw]
          exact hbranch v SalarySource.company_website (some t) (by simp)
  constructor
  · unfold resolveFirstYearSalary
    rcases scrapedFirstYear with _ | f
    · exact hnofull tariffType companyName originalLink
    · by_cases hf : f ≠ 0
      · simpa [hf, scrapedResult] using
          hbranch f SalarySource.scraped Option.none (by simp)
      · simpa [hf] using hnofull tariffType companyName originalLink
  · unfold resolveFirstYearSalaryFast
    rcases scrapedFirstYear with _ | f
    · exact hnofast tariffType
    · by_cases hf : f ≠ 0
      · simpa [hf, scrapedResult] using
          hbranch f SalarySource.scraped Option.none (by simp)
      · simpa [hf] using hnofast tariffType

/-- Witness for C10 at a concrete input. -/
theorem C10_result_invariant_witness :
    resultInvariant (some 1250)
      (resolveFirstYearSalary (fun _ _ => Except.error ()) Option.none (some 1250)
        (some TariffType.OTHER) (some "ACME") (some "https://a.example")) ∧
    resultInvariant (some 1250)
      (resolveFirstYearSalaryFast Option.none (some 1250) (some TariffType.OTHER)) :=
  C10_result_invariant (fun _ _ => Except.error ()) Option.none (some 1250)
    (some TariffType.OTHER) (some "ACME") (some "https://a.example")

/-- C7: the three AI-output mappers are total functions into their closed
enums (by construction of the embedding); undefined/null, the empty string
and the sentinel strings map to the documented defaults, and so does any
input whose lowercased form contains none of the keyword substrings:
GermanLevel.NONE, EducationLevel.REALSCHULE and TariffType.NONE. -/
theorem C7_mappers_total_with_defaults :
    (∀ s : Option String,
      (s = Option.none ∨ s = some "" ∨ s = some "null" ∨ s = some "none" ∨
        s = some "not mentioned") →
      mapGermanLevel s = GermanLevel.NONE ∧ mapTariffType s = TariffType.NONE) ∧
    (mapEducationLevel Option.none = EducationLevel.REALSCHULE ∧
      mapEducationLevel (some "") = EducationLevel.REALSCHULE ∧
      mapEducationLevel (some "null") = EducationLevel.REALSCHULE ∧
      mapEducationLevel (some "not mentioned") = EducationLevel.REALSCHULE) ∧
    (∀ s : String, (∀ k ∈ germanLevelKeywords, strIncludes (jsToLowerStr s) k = false) →
      mapGermanLevel (some s) = GermanLevel.NONE) ∧
    (∀ s : String, (∀ k ∈ educationKeywords, strIncludes (jsToLowerStr s) k = false) →
      mapEducationLevel (some s) = EducationLevel.REALSCHULE) ∧
    (∀ s : String, (∀ k ∈ tariffKeywords, strIncludes (jsToLowerStr s) k = false) →
      mapTariffType (some s) = TariffType.NONE) := by
  refine ⟨?_, by decide, ?_, ?_, ?_⟩
  · rintro s (rfl | rfl | rfl | rfl | rfl) <;> exact ⟨by decide, by decide⟩
  · intro s h
    obtain ⟨h1, h2, h3, h4, h5, h6, h7, h8, h9, h10, h11, h12, h13, h14, h15⟩ :=
      by simpa [germanLevelKeywords] using h
    simp [mapGermanLevel, h1, h2, h3, h4, h5, h6, h7, h8, h9, h10, h11, h12, h13, h14, h15]
  · intro s h
    obtain ⟨h1, h2, h3, h4, h5, h6⟩ := by simpa [educationKeywords] using h
    simp [mapEducationLevel, h1, h2, h3, h4, h5, h6]
  · intro s h
    obtain ⟨h1, h2, h3, h4, h5, h6, h7, h8, h9, h10, h11, h12, h13, h14, h15, h16,
      h17, h18, h19, h20, h21, h22⟩ := by simpa [tariffKeywords] using h
    simp [mapTariffType, h1, h2, h3, h4, h5, h6, h7, h8, h9, h10, h11, h12, h13,
      h14, h15, h16, h17, h18, h19, h20, h21, h22]

/-- Witness for C7 at concrete inputs. -/
theorem C7_mappers_total_with_defaults_witness :
    mapGermanLevel (some "null") = GermanLevel.NONE ∧
    mapTariffType (some "not mentioned") = TariffType.NONE ∧
    mapGermanLevel (some "xyz") = GermanLevel.NONE ∧
    mapEducationLevel (some "xyz") = EducationLevel.REALSCHULE ∧
    mapTariffType (some "xyz") = TariffType.NONE :=
  ⟨(C7_mappers_total_with_defaults.1 (some "null") (by simp)).1,
   (C7_mappers_total_with_defaults.1 (some "not mentioned") (by simp)).2,
   C7_mappers_total_with_defaults.2.2.1 "xyz" (by decide),
   C7_mappers_total_with_defaults.2.2.2.1 "xyz" (by decide),
   C7_mappers_total_with_defaults.2.2.2.2 "xyz" (by decide)⟩

/-- Char.ofNat round-trips through toNat below the surrogate range. -/
theorem toNat_ofNat_small (n : Nat) (h : n < 55296) : (Char.ofNat n).toNat = n := by
  have hv : n.isValidChar := Or.inl h
  rw [Char.ofNat, dif_pos hv]
  show (UInt32.toNat _) = n
  simp [Char.ofNatAux, UInt32.toNat, BitVec.toNat_ofNatLt]

/-- jsToLower is idempotent on characters. -/
theorem jsToLower_fix (c : Char) : jsToLower (jsToLower c) = jsToLower c := by
  by_cases h : (65 ≤ c.toNat ∧ c.toNat ≤ 90) ∨
      (192 ≤ c.toNat ∧ c.toNat ≤ 222 ∧ c.toNat ≠ 215)
  · have h1 : jsToLower c = Char.ofNat (c.toNat + 32) := by
      simp only [jsToLower]
      rw [if_pos h]
    have hv : (Char.ofNat (c.toNat + 32)).toNat = c.toNat + 32 :=
      toNat_ofNat_small _ (by omega)
    rw [h1]
    simp only [jsToLower]
    rw [if_neg (by rw [hv]; omega)]
  · have h1 : jsToLower c = c := by
      simp only [jsToLower]
      rw [if_neg h]
    rw [h1, h1]

/-- Mapping a function that fixes every member of a list is the identity. -/
theorem map_eq_self_of_fix {α : Type} {f : α → α} :
    ∀ {l : List α}, (∀ x ∈ l, f x = x) → l.map f = l
  | [], _ => rfl
  | x :: xs, h => by
    simp only [List.map_cons, h x (by simp)]
    rw [map_eq_self_of_fix (fun y hy => h y (by simp [hy]))]

/-- Dropping a leading run, a trailing run, and then a leading run again is
the same as dropping one leading and one trailing run. -/
theorem trim_core (p : Char → Bool) (l : List Char) :
    List.dropWhile p (List.rdropWhile p (List.dropWhile p l))
      = List.rdropWhile p (List.dropWhile p l) := by
  rcases hr : List.rdropWhile p (List.dropWhile p l) with _ | ⟨x, xs⟩
  · simp
  · obtain ⟨t, ht⟩ := hr ▸ List.rdropWhile_prefix (p := p) (l := List.dropWhile p l)
    have hself : List.dropWhile p (List.dropWhile p l) = List.dropWhile p l :=
      List.dropWhile_idempotent p _
    rw [← ht] at hself
    have hpx : p x = false := by
      by_contra hp
      have hp' : p x = true := by simpa using hp
      rw [List.cons_append, List.dropWhile_cons, if_pos hp'] at hself
      have hlen := congrArg List.length hself
      have hle := (List.dropWhile_sublist (l := xs ++ t) p).length_le
      simp only [List.length_cons, List.length_append] at hlen hle
      omega
    rw [List.dropWhile_cons, if_neg (by simp [hpx])]

/-- jsTrim is idempotent. -/
theorem jsTrim_fix (s : String) : jsTrim (jsTrim s) = jsTrim s := by
  simp only [jsTrim]
  rw [trim_core, List.rdropWhile_idempotent]

/-- Lowercasing an already lowered-and-trimmed string changes nothing. -/
theorem jsToLowerStr_of_trimmed (s : String) :
    jsToLowerStr (jsTrim (jsToLowerStr s)) = jsTrim (jsToLowerStr s) := by
  have hmem : ∀ x ∈ (jsTrim (jsToLowerStr s)).data, jsToLower x = x := by
    intro x hx
    simp only [jsTrim, jsToLowerStr] at hx
    have h1 : x ∈ List.dropWhile isJsWhitespace (s.data.map jsToLower) :=
      (List.rdropWhile_prefix _ _).sublist.subset hx
    have h2 : x ∈ s.data.map jsToLower := (List.dropWhile_sublist _).subset h1
    obtain ⟨y, _, rfl⟩ := List.mem_map.mp h2
    exact jsToLower_fix y
  show String.mk ((jsTrim (jsToLowerStr s)).data.map jsToLower) = jsTrim (jsToLowerStr s)
  rw [map_eq_self_of_fix hmem]

/-- The per-entry normalization (toLowerCase then trim) is idempotent. -/
theorem jsLowerTrim_fix (s : String) :
    jsTrim (jsToLowerStr (jsTrim (jsToLowerStr s))) = jsTrim (jsToLowerStr s) := by
  rw [jsToLowerStr_of_trimmed, jsTrim_fix]

/-- Elements of the deduplicated list come from the original list. -/
theorem jsDedup_subset : ∀ l : List String, ∀ x ∈ jsDedup l, x ∈ l := by
  intro l
  induction l using jsDedup.induct with
  | case1 => simp [jsDedup]
  | case2 x xs ih =>
    intro y hy
    rw [jsDedup] at hy
    rcases List.mem_cons.mp hy with rfl | hy'
    · exact List.mem_cons_self _ _
    · exact List.mem_cons_of_mem _ (List.mem_of_mem_filter (ih y hy'))

/-- The deduplicated list has no duplicates. -/
theorem jsDedup_nodup : ∀ l : List String, (jsDedup l).Nodup := by
  intro l
  induction l using jsDedup.induct with
  | case1 => simp [jsDedup]
  | case2 x xs ih =>
    rw [jsDedup]
    refine List.Nodup.cons ?_ ih
    intro hx
    have := List.of_mem_filter (jsDedup_subset _ _ hx)
    simp at this

/-- Deduplication does not change a list that is already duplicate-free. -/
theorem jsDedup_eq_self : ∀ {l : List String}, l.Nodup → jsDedup l = l := by
  intro l
  induction l using jsDedup.induct with
  | case1 => intro _; simp [jsDedup]
  | case2 x xs ih =>
    intro h
    have hx : x ∉ xs := (List.nodup_cons.mp h).1
    have hxs : xs.Nodup := (List.nodup_cons.mp h).2
    have hf : xs.filter (fun y => y != x) = xs := by
      rw [List.filter_eq_self]
      intro y hy
      simp only [bne_iff_ne, ne_eq]
      intro hyx
      exact hx (hyx ▸ hy)
    rw [hf] at ih
    rw [jsDedup, hf, ih hxs]

/-- C9: normalizeTechStack is idempotent; its output (lowercased, trimmed,
empties dropped, deduplicated, sorted) is a fixed point. -/
theorem C9_normalizeTechStack_idempotent (x : List String) :
    normalizeTechStack (normalizeTechStack x) = normalizeTechStack x := by
  have hmem1 : ∀ s ∈ normalizeTechStack x, jsTrim (jsToLowerStr s) = s := by
    intro s hs
    unfold normalizeTechStack jsSortStrings at hs
    rw [List.mem_insertionSort] at hs
    have h1 := jsDedup_subset _ s hs
    obtain ⟨t, _, rfl⟩ := List.mem_map.mp (List.mem_of_mem_filter h1)
    exact jsLowerTrim_fix t
  have hlen : ∀ s ∈ normalizeTechStack x, 0 < s.length := by
    intro s hs
    unfold normalizeTechStack jsSortStrings at hs
    rw [List.mem_insertionSort] at hs
    have h1 := List.of_mem_filter (jsDedup_subset _ s hs)
    simpa using h1
  have hnodup : (normalizeTechStack x).Nodup := by
    unfold normalizeTechStack jsSortStrings
    exact ((List.perm_insertionSort _ _).nodup_iff).mpr (jsDedup_nodup _)
  have hsorted : List.Sorted (fun a b : String => a ≤ b) (normalizeTechStack x) := by
    unfold normalizeTechStack jsSortStrings
    exact List.sorted_insertionSort _ _
  show jsSortStrings (jsDedup
      (((normalizeTechStack x).map (fun tech => jsTrim (jsToLowerStr tech))).filter
        (fun tech => tech.length > 0)))
    = normalizeTechStack x
  rw [map_eq_self_of_fix hmem1]
  rw [List.filter_eq_self.mpr (by intro a ha; simpa using hlen a ha)]
  rw [jsDedup_eq_self hnodup]
  show List.insertionSort _ _ = _
  exact List.Sorted.insertionSort_eq hsorted

/-- Counterexample to C8 as stated: "31.02.2026" matches the numeric
pattern but 2026-02-31 is not a calendar date, and normalizeDate returns
the Invalid Date object (modelled `some Option.none`) — neither null nor a
valid canonical calendar date. -/
theorem C8_counterexample :
    normalizeDate (fun _ => Option.none) "31.02.2026" = some Option.none ∧
    normalizeDate (fun _ => Option.none) "31.02.2026" ≠ Option.none := by
  constructor <;> decide

/-- C8 (amended: a matched pattern with calendar-invalid components yields
an invalid Date object rather than null): empty input gives null; a
numeric match gives the Date with exactly the captured components under
ISO semantics; "1. September 26" normalizes to 2026-09-01 without
consulting generic parsing; a textual match with known month name and
two-digit year is interpreted as 2000+YY; and when no pattern matches and
generic parsing fails, the result is null, never an error or an epoch
sentinel. -/
theorem C8_normalizeDate_recognition
    (hostParse : String → Option CalDate) :
    (normalizeDate hostParse "" = Option.none) ∧
    (normalizeDate hostParse "1. September 26" = some (some ⟨2026, 9, 1⟩)) ∧
    (normalizeDate hostParse "01.09.2026" = some (some ⟨2026, 9, 1⟩)) ∧
    (∀ s d m y, s ≠ "" →
      searchNumericDMY (jsToLowerStr (jsTrim s)).data = some (d, m, y) →
      normalizeDate hostParse s = some (jsNewDateISO y m d)) ∧
    (∀ s d mname yv mn, s ≠ "" →
      searchNumericDMY (jsToLowerStr (jsTrim s)).data = Option.none →
      searchTextualDMY (jsToLowerStr (jsTrim s)).data = some (d, mname, yv) →
      monthNames mname = some mn → yv < 100 →
      normalizeDate hostParse s = some (jsNewDateISO (2000 + yv) mn d)) ∧
    (∀ s, s ≠ "" →
      searchNumericDMY (jsToLowerStr (jsTrim s)).data = Option.none →
      searchTextualDMY (jsToLowerStr (jsTrim s)).data = Option.none →
      hostParse (jsToLowerStr (jsTrim s)) = Option.none →
      normalizeDate hostParse s = Option.none) := by
  refine ⟨by rfl, by rfl, by rfl, ?_, ?_, ?_⟩
  · intro s d m y hs hnum
    rw [normalizeDate, if_neg hs]
    simp only []
    rw [hnum]
  · intro s d mname yv mn hs hnum htxt hmn hyv
    rw [normalizeDate, if_neg hs]
    simp only [hnum, htxt, hmn]
    rw [if_pos hyv, if_pos (by omega)]
  · intro s hs hnum htxt hhost
    rw [normalizeDate, if_neg hs]
    simp only [hnum, htxt]
    rw [dateFallback, hhost]

/-- Witness for C8 at concrete inputs. -/
theorem C8_normalizeDate_recognition_witness :
    normalizeDate (fun _ => Option.none) "1. September 26" = some (some ⟨2026, 9, 1⟩) ∧
    normalizeDate (fun _ => Option.none) "3. Okt 26" = some (jsNewDateISO 2026 10 3) ∧
    normalizeDate (fun _ => Option.none) "hello world" = Option.none :=
  ⟨(C8_normalizeDate_recognition (fun _ => Option.none)).2.1,
   (C8_normalizeDate_recognition (fun _ => Option.none)).2.2.2.2.1 "3. Okt 26" 3 "okt" 26 10
     (by decide) (by decide) (by decide) (by decide) (by decide),
   (C8_normalizeDate_recognition (fun _ => Option.none)).2.2.2.2.2 "hello world"
     (by decide) (by decide) (by decide) rfl⟩

set_option maxRecDepth 4000 in
/-- Counterexample to C4 as stated: a single key accepting one permitted
attempt every 4 seconds (respecting the 4s minimum delay) records 28 calls
in under two minutes, 15 of which — at 60000ms through 116000ms — lie in a
rolling window of 56 seconds, exceeding the ceiling of 14. The quota
window is reset-based (fixed), not rolling. -/
theorem C4_counterexample :
    ((minerRun ((List.range 28).map (fun i => KeyEvent.attempt (8000 + 4000 * i)))).recorded.filter
        (fun t => decide (60000 ≤ t) && decide (t ≤ 116000))).length = 15 ∧
    116000 - 60000 ≤ 60000 := by
  constructor <;> decide

/-- Step lemma: each event preserves the per-window quota invariant. -/
theorem minerStep_invariant (m : MinerSim) (e : KeyEvent)
    (h1 : m.windowCalls ≤ m.stats.callCount) (h2 : m.windowCalls ≤ 14) :
    (minerStep m e).windowCalls ≤ (minerStep m e).stats.callCount ∧
    (minerStep m e).windowCalls ≤ 14 := by
  cases e with
  | attempt t =>
    simp only [minerStep, canUseCurrentKey]
    by_cases hw : windowExpired t m.stats
    · simp [hw, recordApiCall]
    · by_cases hc : m.stats.callCount < 14
      · simp [hw, hc, recordApiCall]
        omega
      · simp [hw, hc]
        exact ⟨h1, h2⟩
  | exhaustedRetry t => simp [minerStep, recordApiCall]
  | saturate =>
    refine ⟨?_, h2⟩
    show m.windowCalls ≤ 15
    omega

/-- C4 (amended to the fixed quota window the code implements): across any
sequence of per-key events under any clock progression, the number of
calls recorded for a key since its current 60-second quota window started
never exceeds 14. (Within a rolling 60-second window spanning a reset
boundary, more than 14 calls are possible, see the counterexample.) -/
theorem C4_fixed_window_quota (events : List KeyEvent) :
    (minerRun events).windowCalls ≤ 14 := by
  have main : ∀ (es : List KeyEvent) (m : MinerSim),
      m.windowCalls ≤ m.stats.callCount → m.windowCalls ≤ 14 →
      (es.foldl minerStep m).windowCalls ≤ (es.foldl minerStep m).stats.callCount ∧
      (es.foldl minerStep m).windowCalls ≤ 14 := by
    intro es
    induction es with
    | nil => intro m h1 h2; exact ⟨h1, h2⟩
    | cons e rest ih =>
      intro m h1 h2
      have := minerStep_invariant m e h1 h2
      exact ih (minerStep m e) this.1 this.2
  exact (main events minerInit (by simp [minerInit]) (by simp [minerInit])).2

/-- C6: a mining run whose phase-1 listing fetch yields zero items returns
the database unchanged (in particular no posting's is_active flag is
touched) and never reaches phase 3. -/
theorem C6_empty_listing_marks_nothing
    (cfg : MinerConfig) (oracle : MinerOracles) (now : Nat) (db : List StoredJob) :
    mine cfg oracle now [] db = (db, false) := by
  simp [mine]

end AusbildungScout
